import Mathlib

/-!
Shallow embedding of the `v4l2-rs` capture core: the single-planar capture
`Format` value object (`src/capture/format.rs`) and the user-pointer
`Stream` state machine (`src/io/userptr/stream.rs`).

The driver side of every ioctl is modelled as an explicit parameter of the
operation (the driver's response), and every operation additionally returns
the list of device-control calls it issued, so that claims about "issues no
call" / "issues the call with these arguments" are statable.  Machine
integers (`u32`, `usize`, pointers) are modelled as `Nat`; no arithmetic in
the embedded code can overflow a 64-bit machine word on realistic pools, and
no claim depends on wrap-around.  Fallible Rust code returning
`io::Result<T>` is modelled as `Except IoError T`; a Rust panic
(`unwrap` / `expect` / assertion failure) is modelled explicitly where a
claim mentions it.
-/

deriving instance DecidableEq for Except

namespace V4l

/-- Modelled from the spec: `field.rs` is not under `src/`.  The spec (§6,
§7) treats the field-order enumeration as a fixed external contract with a
known finite set of codes, conversion from a driver code failing outside
that set; the codes are those of the V4L2 `v4l2_field` enumeration the spec
refers to (`V4L2_FIELD_ANY = 0` … `V4L2_FIELD_INTERLACED_BT = 9`). -/
inductive Field where
  | any
  | nofield
  | top
  | bottom
  | interlaced
  | seqTB
  | seqBT
  | alternate
  | interlacedTB
  | interlacedBT
  deriving DecidableEq, Repr

/-- The `as u32` cast of a `Field` value (its discriminant). -/
def Field.toCode : Field → Nat
  | .any => 0
  | .nofield => 1
  | .top => 2
  | .bottom => 3
  | .interlaced => 4
  | .seqTB => 5
  | .seqBT => 6
  | .alternate => 7
  | .interlacedTB => 8
  | .interlacedBT => 9

/-- Modelled from the spec: `TryFrom<u32> for Field`, succeeding exactly on
the known enumeration codes. -/
def Field.tryFrom (code : Nat) : Option Field :=
  match code with
  | 0 => some .any
  | 1 => some .nofield
  | 2 => some .top
  | 3 => some .bottom
  | 4 => some .interlaced
  | 5 => some .seqTB
  | 6 => some .seqBT
  | 7 => some .alternate
  | 8 => some .interlacedTB
  | 9 => some .interlacedBT
  | _ => none

/-- Modelled from the spec: `colorspace.rs` is not under `src/`.  Same
situation as `Field`: a fixed external enumeration (`v4l2_colorspace`,
`V4L2_COLORSPACE_DEFAULT = 0` … `V4L2_COLORSPACE_DCI_P3 = 12`), with
conversion from a driver code failing outside the known set. -/
inductive Colorspace where
  | default
  | smpte170m
  | smpte240m
  | rec709
  | bt878
  | sys470M
  | sys470BG
  | jpeg
  | srgb
  | oprgb
  | bt2020
  | raw
  | dciP3
  deriving DecidableEq, Repr

/-- The `as u32` cast of a `Colorspace` value (its discriminant). -/
def Colorspace.toCode : Colorspace → Nat
  | .default => 0
  | .smpte170m => 1
  | .smpte240m => 2
  | .rec709 => 3
  | .bt878 => 4
  | .sys470M => 5
  | .sys470BG => 6
  | .jpeg => 7
  | .srgb => 8
  | .oprgb => 9
  | .bt2020 => 10
  | .raw => 11
  | .dciP3 => 12

/-- Modelled from the spec: `TryFrom<u32> for Colorspace`, succeeding
exactly on the known enumeration codes. -/
def Colorspace.tryFrom (code : Nat) : Option Colorspace :=
  match code with
  | 0 => some .default
  | 1 => some .smpte170m
  | 2 => some .smpte240m
  | 3 => some .rec709
  | 4 => some .bt878
  | 5 => some .sys470M
  | 6 => some .sys470BG
  | 7 => some .jpeg
  | 8 => some .srgb
  | 9 => some .oprgb
  | 10 => some .bt2020
  | 11 => some .raw
  | 12 => some .dciP3
  | _ => none

/-- Modelled from the spec: `fourcc.rs` is not under `src/`.  The spec (§1
scope note, §6) carries the pixel-encoding code through the conversions
losslessly; the four-character code is interchangeable with the native
32-bit `pixelformat` word, so it is carried as that word. -/
structure FourCC where
  repr : Nat
  deriving DecidableEq, Repr

/-- Modelled from the spec: `From<u32> for FourCC` (lossless). -/
def FourCC.fromU32 (v : Nat) : FourCC := ⟨v⟩

/-- Modelled from the spec: `Into<u32> for FourCC` (lossless). -/
def FourCC.toU32 (f : FourCC) : Nat := f.repr

/-- Source `capture::Format` (`src/capture/format.rs`): streaming format,
single-planar. -/
structure Format where
  width : Nat
  height : Nat
  field : Field
  fourcc : FourCC
  stride : Nat
  size : Nat
  colorspace : Colorspace
  deriving DecidableEq, Repr

/-- Source `Format::new(width, height, fourcc)` (`src/capture/format.rs`). -/
def Format.new (width height : Nat) (fourcc : FourCC) : Format :=
  ⟨width, height, Field.any, fourcc, 0, 0, Colorspace.default⟩

/-- The native descriptor `v4l2_pix_format`, restricted to the fields the
embedded code reads or writes; `Into<v4l2_pix_format>` zeroes the remainder
of the struct and the remainder is never read back by `From`. -/
structure V4l2PixFormat where
  width : Nat
  height : Nat
  pixelformat : Nat
  field : Nat
  bytesperline : Nat
  sizeimage : Nat
  colorspace : Nat
  deriving DecidableEq, Repr

/-- Source `From<v4l2_pix_format> for Format` (`src/capture/format.rs`).  The
source converts with `Field::try_from(fmt.field).expect("Invalid field")`
and `Colorspace::try_from(fmt.colorspace).expect("Invalid colorspace")`:
`none` here models the `expect` panic (assertion failure), `some` the
successfully built value. -/
def Format.fromPix (fmt : V4l2PixFormat) : Option Format :=
  match Field.tryFrom fmt.field, Colorspace.tryFrom fmt.colorspace with
  | some f, some c =>
      some ⟨fmt.width, fmt.height, f, FourCC.fromU32 fmt.pixelformat,
            fmt.bytesperline, fmt.sizeimage, c⟩
  | _, _ => none

/-- Source `Into<v4l2_pix_format> for Format` (`src/capture/format.rs`): zeroed
struct, then the seven fields written. -/
def Format.intoPix (f : Format) : V4l2PixFormat :=
  ⟨f.width, f.height, f.fourcc.toU32, f.field.toCode, f.stride, f.size,
   f.colorspace.toCode⟩

lemma field_tryFrom_toCode (f : Field) : Field.tryFrom f.toCode = some f := by
  cases f <;> rfl

lemma colorspace_tryFrom_toCode (c : Colorspace) :
    Colorspace.tryFrom c.toCode = some c := by
  cases c <;> rfl

/-! ## Stream state machine (`src/io/userptr/stream.rs`) -/

/-- A Rust `std::io::Error`: either an OS error code or a custom error with
a message (`io::Error::new(kind, msg)`). -/
inductive IoError where
  | os (code : Nat)
  | other (msg : String)
  deriving DecidableEq, Repr

/-- The error built at `stream.rs:151-154` when no pool slot matches the
completion descriptor's address. -/
def bufferNotFound : IoError := IoError.other "failed to find buffer"

/-- One slot of the user-pointer `Arena` pool, as seen by the `Stream`: its
base address (`as_ptr()`) and its capacity (`len()`).  Modelled from the
spec for the Arena side (`arena.rs` is not under `src/`): §3 "Buffer slot"
and §4.1 user-pointer model. -/
structure BufferSlot where
  addr : Nat
  len : Nat
  deriving DecidableEq, Repr

/-- The `Stream` struct's state (`stream.rs:14-21`): the arena's slot pool,
the round-robin `arena_index`, and the `active` / `queued` flags.  The
`handle` field only carries the fd into ioctl calls and is irrelevant to
every claim, so it is not part of the state. -/
structure StreamState where
  buffers : List BufferSlot
  arena_index : Nat
  active : Bool
  queued : Bool
  deriving DecidableEq, Repr

/-- A device-control (ioctl) call issued by the stream, with the payload
fields the source writes before issuing it. -/
inductive IoctlCall where
  | streamon
  | streamoff
  | qbuf (index userptr length : Nat)
  | dqbuf
  deriving DecidableEq, Repr

/-- Modelled from the spec: `timestamp.rs` is not under `src/`.  The spec
only requires the driver-reported capture timestamp to be carried verbatim
into the frame metadata (§3 "Frame view"); the native `timeval` is a
seconds/microseconds pair. -/
structure Timestamp where
  sec : Int
  usec : Int
  deriving DecidableEq, Repr

/-- The completion descriptor (`v4l2_buffer`) returned by a successful
`VIDIOC_DQBUF`, restricted to the fields `dequeue` reads. -/
structure V4l2Buffer where
  userptr : Nat
  bytesused : Nat
  sequence : Nat
  timestamp : Timestamp
  flags : Nat
  deriving DecidableEq, Repr

/-- Frame metadata (`buffer.rs` is not under `src/`; modelled from the
spec §3: sequence number, capture timestamp, driver status flags, built by
`Metadata::new(seq, ts, flags)` from exactly those reported values). -/
structure Metadata where
  sequence : Nat
  timestamp : Timestamp
  flags : Nat
  deriving DecidableEq, Repr

/-- The byte-slice view handed out on dequeue:
`slice::from_raw_parts(ptr, bytesused)` is modelled by its base pointer and
its length. -/
structure FrameView where
  ptr : Nat
  len : Nat
  deriving DecidableEq, Repr

/-- The `Buffer` frame view (`buffer.rs` is not under `src/`; modelled
from the spec §3 "Frame view": a bounded byte slice plus metadata, built by
`Buffer::new(view, meta)`). -/
structure Buffer where
  view : FrameView
  meta : Metadata
  deriving DecidableEq, Repr

/-- Modelled from the spec: `device.rs` / `arena.rs` are not under `src/`.
A device is represented by its allocation behaviour: `Arena::new(dev)`
followed by `arena.allocate(count)` (§4.1) either fails or yields the pool
of `count` resolved slots. -/
abbrev Device : Type := Nat → Except IoError (List BufferSlot)

/-- Source `Stream::with_buffers(dev, count)` (`stream.rs:45-57`): allocate the
arena pool, then build the state with `arena_index = 0`, `active = false`
and — because the arena queues up all buffers once during allocation —
`queued = true`. -/
def Stream.with_buffers (dev : Device) (count : Nat) :
    Except IoError StreamState :=
  match dev count with
  | Except.error e => Except.error e
  | Except.ok bufs => Except.ok ⟨bufs, 0, false, true⟩

/-- Source `Stream::new(dev)` (`stream.rs:41-43`). -/
def Stream.new (dev : Device) : Except IoError StreamState :=
  Stream.with_buffers dev 4

/-- Source `Stream::start` (`stream.rs:69-80`): issue `VIDIOC_STREAMON` and
propagate its result.  Note the source does not modify any state here — in
particular it never sets `active`. -/
def Stream.start (s : StreamState) (r : Except IoError Unit) :
    Except IoError Unit × StreamState × List IoctlCall :=
  (r, s, [IoctlCall.streamon])

/-- Source `Stream::stop` (`stream.rs:82-93`): issue `VIDIOC_STREAMOFF` and
propagate its result; no state is modified. -/
def Stream.stop (s : StreamState) (r : Except IoError Unit) :
    Except IoError Unit × StreamState × List IoctlCall :=
  (r, s, [IoctlCall.streamoff])

/-- Outcome of running a Rust destructor: returned normally, or panicked
(an `unwrap` on an `Err`). -/
inductive DropOutcome where
  | returned
  | panicked
  deriving DecidableEq, Repr

/-- Source `Drop for Stream` (`stream.rs:60-64`): the body is
`self.stop().unwrap()`, so the teardown path panics exactly when the
`VIDIOC_STREAMOFF` ioctl reports an error. -/
def Stream.drop (s : StreamState) (rStop : Except IoError Unit) :
    DropOutcome × List IoctlCall :=
  match Stream.stop s rStop with
  | (Except.ok _, _, tr) => (DropOutcome.returned, tr)
  | (Except.error _, _, tr) => (DropOutcome.panicked, tr)

/-- Source `Stream::queue` (`stream.rs:95-122`): early-return `Ok` while `queued`
is set; otherwise submit the slot at `arena_index` (address and length
written into the `v4l2_buffer` payload), and on ioctl success advance the
index, wrapping to 0 when it reaches the pool length.  The `?` on the
ioctl returns the error before the index is advanced. -/
def Stream.queue (s : StreamState) (r : Except IoError Unit) :
    Except IoError Unit × StreamState × List IoctlCall :=
  if s.queued then
    (Except.ok (), s, [])
  else
    let buf := s.buffers.getD s.arena_index ⟨0, 0⟩
    let call := IoctlCall.qbuf s.arena_index buf.addr buf.len
    match r with
    | Except.error e => (Except.error e, s, [call])
    | Except.ok _ =>
        let i := s.arena_index + 1
        let i' := if i = s.buffers.length then 0 else i
        (Except.ok (), ⟨s.buffers, i', s.active, s.queued⟩, [call])

/-- The linear scan of `dequeue` (`stream.rs:138-148`): first pool index
whose slot base address equals the reported `userptr`, if any. -/
def resolveIndex (bufs : List BufferSlot) (userptr : Nat) : Option Nat :=
  match bufs with
  | [] => none
  | b :: rest =>
      if b.addr = userptr then some 0
      else (resolveIndex rest userptr).map (fun i => i + 1)

/-- Source `Stream::dequeue` (`stream.rs:124-180`): issue `VIDIOC_DQBUF` (`?`
propagates an ioctl error with no other effect), then set
`queued = false`, then scan the pool for the reported address.  No match:
return the `bufferNotFound` error.  Match: hand out the frame view built
from the descriptor's `userptr`, `bytesused`, `sequence`, `timestamp` and
`flags` (the resolved index itself is only used for validation). -/
def Stream.dequeue (s : StreamState) (r : Except IoError V4l2Buffer) :
    Except IoError Buffer × StreamState × List IoctlCall :=
  match r with
  | Except.error e => (Except.error e, s, [IoctlCall.dqbuf])
  | Except.ok v =>
      let s1 : StreamState := ⟨s.buffers, s.arena_index, s.active, false⟩
      match resolveIndex s1.buffers v.userptr with
      | none => (Except.error bufferNotFound, s1, [IoctlCall.dqbuf])
      | some _ =>
          (Except.ok ⟨⟨v.userptr, v.bytesused⟩,
                      ⟨v.sequence, v.timestamp, v.flags⟩⟩,
           s1, [IoctlCall.dqbuf])

/-- The `queue(); dequeue()` tail of `next` (`stream.rs:187-188`), with
`?` propagation on the queue result. -/
def Stream.nextBody (s : StreamState) (rQueue : Except IoError Unit)
    (rDeq : Except IoError V4l2Buffer) :
    Except IoError Buffer × StreamState × List IoctlCall :=
  match Stream.queue s rQueue with
  | (Except.error e, s1, tr) => (Except.error e, s1, tr)
  | (Except.ok _, s1, tr) =>
      let step := Stream.dequeue s1 rDeq
      (step.1, step.2.1, tr ++ step.2.2)

/-- Source `Stream::next` (`stream.rs:182-189`): `if !self.active { self.start()?; }`
then `queue(); dequeue()`.  The three driver responses parametrise the up to
three ioctls the call can issue. -/
def Stream.next (s : StreamState) (rStart rQueue : Except IoError Unit)
    (rDeq : Except IoError V4l2Buffer) :
    Except IoError Buffer × StreamState × List IoctlCall :=
  if s.active then
    Stream.nextBody s rQueue rDeq
  else
    match Stream.start s rStart with
    | (Except.error e, s1, tr) => (Except.error e, s1, tr)
    | (Except.ok _, s1, tr) =>
        let step := Stream.nextBody s1 rQueue rDeq
        (step.1, step.2.1, tr ++ step.2.2)

/-- The pool indices submitted by a trace of ioctl calls (the `index`
field of each `VIDIOC_QBUF`). -/
def submittedIndices (tr : List IoctlCall) : List Nat :=
  tr.filterMap (fun c =>
    match c with
    | IoctlCall.qbuf i _ _ => some i
    | _ => none)

/-- The indices submitted by `k` successive `queue` calls, each answered
`Ok` by the driver. -/
def Stream.submitRun (s : StreamState) : Nat → List Nat
  | 0 => []
  | k + 1 =>
      let step := Stream.queue s (Except.ok ())
      submittedIndices step.2.2 ++ Stream.submitRun step.2.1 k

/-! ## Helper lemmas on the linear address scan -/

lemma resolveIndex_eq_none (bufs : List BufferSlot) (p : Nat)
    (h : ∀ b ∈ bufs, b.addr ≠ p) : resolveIndex bufs p = none := by
  induction bufs with
  | nil => rfl
  | cons b rest ih =>
      have hb : b.addr ≠ p := h b (List.mem_cons_self b rest)
      have hrest := ih (fun x hx => h x (List.mem_cons_of_mem b hx))
      simp [resolveIndex, hb, hrest]

lemma resolveIndex_isSome (bufs : List BufferSlot) (p : Nat)
    (h : ∃ b ∈ bufs, b.addr = p) : (resolveIndex bufs p).isSome := by
  induction bufs with
  | nil => simp at h
  | cons b rest ih =>
      by_cases hb : b.addr = p
      · simp [resolveIndex, hb]
      · obtain ⟨x, hx, hxp⟩ := h
        rcases List.mem_cons.mp hx with h1 | h1
        · exact absurd (h1 ▸ hxp) hb
        · have hrest := ih ⟨x, h1, hxp⟩
          simp only [resolveIndex, hb, if_false]
          cases hres : resolveIndex rest p with
          | none => rw [hres] at hrest; simp at hrest
          | some i => simp

lemma resolveIndex_first (bufs : List BufferSlot) (p : Nat) :
    ∀ i, i < bufs.length → (bufs.getD i ⟨0, 0⟩).addr = p →
    (∀ j, j < i → (bufs.getD j ⟨0, 0⟩).addr ≠ p) →
    resolveIndex bufs p = some i := by
  induction bufs with
  | nil => intro i hi; simp at hi
  | cons b rest ih =>
      intro i hi hmatch hbefore
      cases i with
      | zero =>
          have hb : b.addr = p := by simpa using hmatch
          simp [resolveIndex, hb]
      | succ k =>
          have hb : b.addr ≠ p := by
            have := hbefore 0 (Nat.succ_pos k)
            simpa using this
          have hk : k < rest.length := by
            simpa using Nat.lt_of_succ_lt_succ hi
          have hm : (rest.getD k ⟨0, 0⟩).addr = p := by simpa using hmatch
          have hb' : ∀ j, j < k → (rest.getD j ⟨0, 0⟩).addr ≠ p := by
            intro j hj
            have := hbefore (j + 1) (Nat.succ_lt_succ hj)
            simpa using this
          simp [resolveIndex, hb, ih k hk hm hb']

lemma wrap_eq_mod (i n : Nat) (hi : i < n) :
    (if i + 1 = n then 0 else i + 1) = (i + 1) % n := by
  by_cases h : i + 1 = n
  · simp [h, Nat.mod_self]
  · have hlt : i + 1 < n := lt_of_le_of_ne (Nat.succ_le_of_lt hi) h
    simp [h, Nat.mod_eq_of_lt hlt]

lemma queue_step (s : StreamState) (h : s.queued = false)
    (hi : s.arena_index < s.buffers.length) :
    Stream.queue s (Except.ok ()) =
      (Except.ok (),
       ⟨s.buffers, (s.arena_index + 1) % s.buffers.length, s.active, s.queued⟩,
       [IoctlCall.qbuf s.arena_index
          (s.buffers.getD s.arena_index ⟨0, 0⟩).addr
          (s.buffers.getD s.arena_index ⟨0, 0⟩).len]) := by
  simp only [Stream.queue, h, Bool.false_eq_true, if_false,
    wrap_eq_mod s.arena_index s.buffers.length hi]

lemma submitRun_spec (k : Nat) :
    ∀ s : StreamState, s.queued = false → s.arena_index < s.buffers.length →
    Stream.submitRun s k =
      (List.range k).map (fun j => (s.arena_index + j) % s.buffers.length) := by
  induction k with
  | zero => intro s _ _; rfl
  | succ k ih =>
      intro s h hi
      have hN : 0 < s.buffers.length := Nat.lt_of_le_of_lt (Nat.zero_le _) hi
      rw [Stream.submitRun, queue_step s h hi]
      have hi' : (s.arena_index + 1) % s.buffers.length < s.buffers.length :=
        Nat.mod_lt _ hN
      rw [ih ⟨s.buffers, (s.arena_index + 1) % s.buffers.length, s.active, s.queued⟩ h hi']
      rw [List.range_succ_eq_map]
      simp only [submittedIndices, List.filterMap, List.map_cons, List.map_map,
    List.cons_append, List.nil_append]
      refine congrArg₂ _ (Nat.mod_eq_of_lt hi).symm ?_
      refine congrArg₂ _ (funext fun j => ?_) rfl
      show ((s.arena_index + 1) % s.buffers.length + j) % s.buffers.length =
        (s.arena_index + Nat.succ j) % s.buffers.length
      rw [Nat.mod_add_mod, Nat.succ_eq_add_one]
      ring_nf

lemma dequeue_preserves_pool (s : StreamState) (r : Except IoError V4l2Buffer) :
    ((Stream.dequeue s r).2.1).arena_index = s.arena_index ∧
    ((Stream.dequeue s r).2.1).buffers = s.buffers := by
  cases r with
  | error e => exact ⟨rfl, rfl⟩
  | ok v =>
      simp only [Stream.dequeue]
      cases resolveIndex s.buffers v.userptr with
      | none => exact ⟨rfl, rfl⟩
      | some i => exact ⟨rfl, rfl⟩

/-! ## Claim theorems -/

/-- C1 (code bug): the teardown path does call `stop()` unconditionally
(first conjunct: the `VIDIOC_STREAMOFF` ioctl is issued for every state and
every driver response), but the claim's "dropping the Stream does not
panic" is contradicted by the source: `Drop::drop` is
`self.stop().unwrap()`, which panics whenever the ioctl reports an error,
as evaluated here at a concrete failing input (second conjunct). -/
theorem drop_stops_unconditionally_but_panics_on_error :
    (∀ (s : StreamState) (r : Except IoError Unit),
        (Stream.drop s r).2 = [IoctlCall.streamoff])
    ∧ (Stream.drop ⟨[⟨100, 64⟩], 0, false, true⟩
        (Except.error (IoError.os 5))).1 = DropOutcome.panicked := by
  refine ⟨fun s r => ?_, rfl⟩
  cases r with
  | error e => rfl
  | ok v => rfl

/-- C2 (counterexample): the claim says a `BufferNotFound` dequeue "leaves
the pool and stream state unchanged"; at this concrete input (one slot at
address 100, completion descriptor reporting address 999) the error is
returned but the state has changed: `queued` was cleared before the scan
(`stream.rs:136`). -/
theorem dequeue_mismatch_changes_state :
    (Stream.dequeue ⟨[⟨100, 64⟩], 0, false, true⟩
        (Except.ok ⟨999, 0, 0, ⟨0, 0⟩, 0⟩)).1 = Except.error bufferNotFound ∧
    (Stream.dequeue ⟨[⟨100, 64⟩], 0, false, true⟩
        (Except.ok ⟨999, 0, 0, ⟨0, 0⟩, 0⟩)).2.1 ≠
      (⟨[⟨100, 64⟩], 0, false, true⟩ : StreamState) := by decide

/-- C2 (amended): when the reported address matches no pool slot,
`dequeue()` returns the `BufferNotFound` error ("failed to find buffer")
and leaves the pool slots, the round-robin index and the active flag
unchanged, while clearing the `queued` flag; when some slot's base address
matches, the scan resolves the first match in index order and `dequeue()`
succeeds with the frame built from the descriptor. -/
theorem dequeue_resolution_amended (s : StreamState) (d : V4l2Buffer) :
    ((∀ b ∈ s.buffers, b.addr ≠ d.userptr) →
      Stream.dequeue s (Except.ok d) =
        (Except.error bufferNotFound,
         ⟨s.buffers, s.arena_index, s.active, false⟩, [IoctlCall.dqbuf]))
    ∧ (∀ i, i < s.buffers.length → (s.buffers.getD i ⟨0, 0⟩).addr = d.userptr →
        (∀ j, j < i → (s.buffers.getD j ⟨0, 0⟩).addr ≠ d.userptr) →
        resolveIndex s.buffers d.userptr = some i ∧
        (Stream.dequeue s (Except.ok d)).1 =
          Except.ok ⟨⟨d.userptr, d.bytesused⟩,
                     ⟨d.sequence, d.timestamp, d.flags⟩⟩) := by
  constructor
  · intro h
    simp [Stream.dequeue, resolveIndex_eq_none s.buffers d.userptr h]
  · intro i hi hmatch hbefore
    have hres := resolveIndex_first s.buffers d.userptr i hi hmatch hbefore
    exact ⟨hres, by simp [Stream.dequeue, hres]⟩

/-- C2 witness: concrete two-slot pool, completion reporting the second
slot's address — resolution picks index 1 and the dequeue succeeds. -/
theorem dequeue_resolution_amended_witness :
    resolveIndex [⟨100, 64⟩, ⟨200, 64⟩] 200 = some 1 ∧
    (Stream.dequeue ⟨[⟨100, 64⟩, ⟨200, 64⟩], 0, false, false⟩
        (Except.ok ⟨200, 32, 7, ⟨1, 2⟩, 3⟩)).1 =
      Except.ok ⟨⟨200, 32⟩, ⟨7, ⟨1, 2⟩, 3⟩⟩ :=
  (dequeue_resolution_amended ⟨[⟨100, 64⟩, ⟨200, 64⟩], 0, false, false⟩
      ⟨200, 32, 7, ⟨1, 2⟩, 3⟩).2 1 (by decide) (by decide) (by decide)

/-- C3 (code bug): the claim says `next()` issues the start-streaming
command only on the first call.  In the source nothing ever sets
`active = true` (first conjunct: `start` leaves the state untouched), so at
the concrete input below the first `next()` succeeds, leaves `active`
false, and the second `next()` issues `VIDIOC_STREAMON` again. -/
theorem next_reissues_streamon :
    (∀ (s : StreamState) (r : Except IoError Unit),
        (Stream.start s r).2.1 = s)
    ∧ (Stream.next ⟨[⟨100, 64⟩], 0, false, true⟩ (Except.ok ()) (Except.ok ())
        (Except.ok ⟨100, 32, 0, ⟨0, 0⟩, 0⟩)).1 =
      Except.ok ⟨⟨100, 32⟩, ⟨0, ⟨0, 0⟩, 0⟩⟩
    ∧ ((Stream.next ⟨[⟨100, 64⟩], 0, false, true⟩ (Except.ok ()) (Except.ok ())
        (Except.ok ⟨100, 32, 0, ⟨0, 0⟩, 0⟩)).2.1).active = false
    ∧ IoctlCall.streamon ∈
      (Stream.next
          (Stream.next ⟨[⟨100, 64⟩], 0, false, true⟩ (Except.ok ())
              (Except.ok ()) (Except.ok ⟨100, 32, 0, ⟨0, 0⟩, 0⟩)).2.1
          (Except.ok ()) (Except.ok ())
          (Except.ok ⟨100, 32, 1, ⟨0, 0⟩, 0⟩)).2.2 := by
  refine ⟨fun s r => rfl, by decide, by decide, by decide⟩

/-- C4: a freshly constructed stream has `queued = true` (first conjunct);
while `queued` is set, `queue()` returns `Ok` without issuing any ioctl and
without touching the state (second conjunct); every dequeue whose ioctl
succeeded clears `queued` (third conjunct, covering in particular every
successful dequeue); and once `queued` is cleared a `queue()` call performs
a real submission of the slot at the current round-robin index (fourth
conjunct). -/
theorem queue_initial_noop :
    (∀ (dev : Device) (count : Nat) (s : StreamState),
        Stream.with_buffers dev count = Except.ok s → s.queued = true)
    ∧ (∀ (s : StreamState) (r : Except IoError Unit), s.queued = true →
        Stream.queue s r = (Except.ok (), s, []))
    ∧ (∀ (s : StreamState) (d : V4l2Buffer),
        ((Stream.dequeue s (Except.ok d)).2.1).queued = false)
    ∧ (∀ (s : StreamState) (r : Except IoError Unit), s.queued = false →
        submittedIndices (Stream.queue s r).2.2 = [s.arena_index]) := by
  refine ⟨?_, ?_, ?_, ?_⟩
  · intro dev count s h
    unfold Stream.with_buffers at h
    cases hd : dev count with
    | error e => rw [hd] at h; exact absurd h (by simp)
    | ok bufs =>
        rw [hd] at h
        cases h
        rfl
  · intro s r h
    simp [Stream.queue, h]
  · intro s d
    simp only [Stream.dequeue]
    cases resolveIndex s.buffers d.userptr with
    | none => rfl
    | some i => rfl
  · intro s r h
    cases r with
    | error e => simp [Stream.queue, h, submittedIndices]
    | ok v => simp [Stream.queue, h, submittedIndices]

/-- C4 witness: at a concrete fresh stream, `queue()` is a no-op. -/
theorem queue_initial_noop_witness :
    Stream.queue ⟨[⟨100, 64⟩], 0, false, true⟩ (Except.ok ()) =
      (Except.ok (), ⟨[⟨100, 64⟩], 0, false, true⟩, []) :=
  queue_initial_noop.2.1 ⟨[⟨100, 64⟩], 0, false, true⟩ (Except.ok ()) rfl

/-- C5: a real submission submits the slot at the current round-robin
index, together with that slot's base address and length, and advances the
index modulo the pool size (first conjunct); over `k` successive real
submissions the submitted indices are exactly
`i, i+1 mod N, …` — for a stream whose index is 0 this is
`0, 1, …, N-1, 0, …` (second conjunct); and the sequence is independent of
dequeues, which never touch the index or the pool (third conjunct). -/
theorem queue_round_robin :
    (∀ s : StreamState, s.queued = false → s.arena_index < s.buffers.length →
      Stream.queue s (Except.ok ()) =
        (Except.ok (),
         ⟨s.buffers, (s.arena_index + 1) % s.buffers.length, s.active, s.queued⟩,
         [IoctlCall.qbuf s.arena_index
            (s.buffers.getD s.arena_index ⟨0, 0⟩).addr
            (s.buffers.getD s.arena_index ⟨0, 0⟩).len]))
    ∧ (∀ (s : StreamState) (k : Nat),
        s.queued = false → s.arena_index < s.buffers.length →
        Stream.submitRun s k =
          (List.range k).map (fun j => (s.arena_index + j) % s.buffers.length))
    ∧ (∀ (s : StreamState) (r : Except IoError V4l2Buffer),
        ((Stream.dequeue s r).2.1).arena_index = s.arena_index ∧
        ((Stream.dequeue s r).2.1).buffers = s.buffers) :=
  ⟨queue_step, fun s k h hi => submitRun_spec k s h hi, dequeue_preserves_pool⟩

/-- C5 witness: five real submissions over a two-slot pool submit indices
`0, 1, 0, 1, 0`. -/
theorem queue_round_robin_witness :
    Stream.submitRun ⟨[⟨100, 64⟩, ⟨200, 64⟩], 0, false, false⟩ 5 =
      [0, 1, 0, 1, 0] :=
  (queue_round_robin.2.1 ⟨[⟨100, 64⟩, ⟨200, 64⟩], 0, false, false⟩ 5 rfl
      (by decide)).trans (by decide)

/-- C6: a dequeue whose completion descriptor matches a pool slot returns a
frame view of length exactly `bytesused`, based at the reported address,
whose metadata is exactly the reported sequence number, timestamp and
flags (first conjunct); an ioctl failure returns that error and no frame
(second conjunct); an unmatched descriptor returns `bufferNotFound` and no
frame (third conjunct). -/
theorem dequeue_frame_view_exact (s : StreamState) (d : V4l2Buffer)
    (e : IoError) :
    ((∃ b ∈ s.buffers, b.addr = d.userptr) →
      (Stream.dequeue s (Except.ok d)).1 =
        Except.ok ⟨⟨d.userptr, d.bytesused⟩,
                   ⟨d.sequence, d.timestamp, d.flags⟩⟩)
    ∧ (Stream.dequeue s (Except.error e)).1 = Except.error e
    ∧ ((∀ b ∈ s.buffers, b.addr ≠ d.userptr) →
      (Stream.dequeue s (Except.ok d)).1 = Except.error bufferNotFound) := by
  refine ⟨?_, rfl, ?_⟩
  · intro h
    have hsome := resolveIndex_isSome s.buffers d.userptr h
    obtain ⟨i, hi⟩ := Option.isSome_iff_exists.mp hsome
    simp [Stream.dequeue, hi]
  · intro h
    simp [Stream.dequeue, resolveIndex_eq_none s.buffers d.userptr h]

/-- C6 witness: concrete matched dequeue — the frame carries
`bytesused = 32`, sequence 9, timestamp (5, 6) and flags 2 verbatim. -/
theorem dequeue_frame_view_exact_witness :
    (Stream.dequeue ⟨[⟨100, 64⟩], 0, true, false⟩
        (Except.ok ⟨100, 32, 9, ⟨5, 6⟩, 2⟩)).1 =
      Except.ok ⟨⟨100, 32⟩, ⟨9, ⟨5, 6⟩, 2⟩⟩ :=
  (dequeue_frame_view_exact ⟨[⟨100, 64⟩], 0, true, false⟩
      ⟨100, 32, 9, ⟨5, 6⟩, 2⟩ (IoError.os 0)).1
    ⟨⟨100, 64⟩, by decide, rfl⟩

/-- C7: the conversion from the native descriptor assumes validity
unconditionally — whenever both the field code and the colorspace code are
inside the known enumerations the conversion succeeds (first conjunct),
and there is a descriptor outside them on which it panics (the `expect`
assertion failure, modelled as `none`) instead of returning a recoverable
error (second conjunct). -/
theorem format_from_pix_assumes_validity :
    (∀ fmt : V4l2PixFormat,
        (Field.tryFrom fmt.field).isSome →
        (Colorspace.tryFrom fmt.colorspace).isSome →
        (Format.fromPix fmt).isSome)
    ∧ ∃ fmt : V4l2PixFormat, Format.fromPix fmt = none := by
  constructor
  · intro fmt hf hc
    obtain ⟨f, hf⟩ := Option.isSome_iff_exists.mp hf
    obtain ⟨c, hc⟩ := Option.isSome_iff_exists.mp hc
    simp [Format.fromPix, hf, hc]
  · exact ⟨⟨0, 0, 0, 10, 0, 0, 0⟩, rfl⟩

/-- C7 witness: a concrete descriptor with valid codes (field 1, colorspace
8) converts successfully. -/
theorem format_from_pix_assumes_validity_witness :
    (Format.fromPix ⟨640, 480, 1448695129, 1, 1280, 614400, 8⟩).isSome :=
  format_from_pix_assumes_validity.1 ⟨640, 480, 1448695129, 1, 1280, 614400, 8⟩
    (by decide) (by decide)

/-- C8: converting a `Format` into the native descriptor and back yields
the original `Format` in every field (the `From` direction succeeds, since
discriminants of valid enum values are always inside the known codes). -/
theorem format_roundtrip_lossless (f : Format) :
    Format.fromPix (Format.intoPix f) = some f := by
  cases f with
  | mk w h fl fc st sz cs =>
      cases fc with
      | mk fcv =>
          simp [Format.intoPix, Format.fromPix, field_tryFrom_toCode,
                colorspace_tryFrom_toCode, FourCC.fromU32, FourCC.toU32]

/-- C9: `Stream::new(dev)` is literally `Stream::with_buffers(dev, 4)`
(first conjunct), so when the arena allocation honours the requested count
the default constructor yields a pool of exactly the 4 allocated slots
(second conjunct). -/
theorem stream_new_is_with_buffers_four (dev : Device) :
    Stream.new dev = Stream.with_buffers dev 4 ∧
    (∀ bufs, dev 4 = Except.ok bufs →
      Stream.new dev = Except.ok ⟨bufs, 0, false, true⟩) := by
  refine ⟨rfl, ?_⟩
  intro bufs h
  simp [Stream.new, Stream.with_buffers, h]

/-- C9 witness: a device whose allocator returns the requested number of
slots — `new` yields the 4-slot pool. -/
theorem stream_new_is_with_buffers_four_witness :
    Stream.new (fun count =>
        Except.ok (List.replicate count (⟨4096, 614400⟩ : BufferSlot))) =
      Except.ok ⟨List.replicate 4 (⟨4096, 614400⟩ : BufferSlot), 0, false, true⟩ :=
  (stream_new_is_with_buffers_four
      (fun count => Except.ok (List.replicate count (⟨4096, 614400⟩ : BufferSlot)))).2
    (List.replicate 4 (⟨4096, 614400⟩ : BufferSlot)) rfl

/-- C10: `Format::new` carries the given width, height and fourcc and
defaults the rest: `field = Any`, `stride = 0`, `size = 0`,
`colorspace = Default`. -/
theorem format_new_defaults (w h : Nat) (fc : FourCC) :
    Format.new w h fc = ⟨w, h, Field.any, fc, 0, 0, Colorspace.default⟩ := rfl

end V4l
